import Mathlib

/-!
Verification of the media-generation job pipeline.

Shallow embedding of the job state machine and orchestration logic:
* `src/app/models/job.py`        — `JobStatus`, `Job` and its `mark_*` methods
* `src/app/services/job_service.py` — creation/validation, cancel, retry, listing
* `src/app/repositories/job_repository.py` — `get_all` pagination
* `src/app/tasks/generation_tasks.py` — the orchestrator attempt
  (`_generate_media_async`), the polling loop with interpolated progress
  (`_wait_for_prediction_with_progress`), and the error handlers.

Machine conventions: Python floats carrying progress values are embedded as
exact rationals (all constants involved, 0.1 0.2 0.7 0.9 0.95, are exact
decimals); timestamps are opaque `Nat` clock readings passed in explicitly;
the two `Dict[str, Any]` mappings are embedded by the keys the code reads
and writes (`metadata["model"]`, `metadata["status_message"]`, and the four
validated generation parameters); external effects (Replicate API, object
storage, wall clock) are supplied as explicit inputs in an `Env`.
-/

namespace MediaGen

/-- `JobStatus` enumeration (src/app/models/job.py). -/
inductive JobStatus where
  | pending
  | processing
  | completed
  | failed
  | cancelled
deriving DecidableEq, Repr

/-- The string value of each enum member (src/app/models/job.py lines 16-20). -/
def JobStatus.value : JobStatus → String
  | .pending => "pending"
  | .processing => "processing"
  | .completed => "completed"
  | .failed => "failed"
  | .cancelled => "cancelled"

/-- A generation-parameter value as validation sees it: a Python `int`,
a Python `float`, or a value of any other runtime type
(`isinstance` checks in `_validate_generation_parameters` distinguish these). -/
inductive PVal where
  | pint (n : Int)
  | pfloat (q : ℚ)
  | pother
deriving DecidableEq, Repr

/-- The `parameters` mapping, embedded by the four keys the validation code
reads; every other key is opaque to the core. -/
structure Params where
  width : Option PVal := none
  height : Option PVal := none
  num_inference_steps : Option PVal := none
  guidance_scale : Option PVal := none
deriving DecidableEq, Repr

/-- The `Job` record (src/app/models/job.py).  `model_meta` and
`status_message` embed the two `metadata` keys the code uses. -/
structure Job where
  id : String
  prompt : String
  parameters : Params
  status : JobStatus
  progress : ℚ
  result_url : Option String
  result_path : Option String
  file_size : Option Nat
  file_type : Option String
  error_message : Option String
  retry_count : Nat
  max_retries : Nat
  replicate_prediction_id : Option String
  celery_task_id : Option String
  model_meta : Option String
  status_message : Option String
  created_at : Nat
  updated_at : Nat
  started_at : Option Nat
  completed_at : Option Nat
deriving DecidableEq, Repr

/-- `Job.is_terminal_status` (src/app/models/job.py lines 103-105). -/
def Job.is_terminal_status (j : Job) : Bool :=
  decide (j.status = JobStatus.completed ∨ j.status = JobStatus.failed
    ∨ j.status = JobStatus.cancelled)

/-- `Job.can_retry` (src/app/models/job.py lines 107-112). -/
def Job.can_retry (j : Job) : Bool :=
  decide (j.status = JobStatus.failed) && decide (j.retry_count < j.max_retries)

/-- `Job.mark_processing` (src/app/models/job.py lines 114-118). -/
def Job.mark_processing (j : Job) (now : Nat) : Job :=
  { j with status := JobStatus.processing, started_at := some now, updated_at := now }

/-- `Job.mark_completed` (src/app/models/job.py lines 120-135). -/
def Job.mark_completed (j : Job) (result_url result_path : String)
    (file_size : Option Nat) (file_type : Option String) (now : Nat) : Job :=
  { j with
    status := JobStatus.completed
    result_url := some result_url
    result_path := some result_path
    file_size := file_size
    file_type := file_type
    progress := 1
    completed_at := some now
    updated_at := now }

/-- `Job.mark_failed` (src/app/models/job.py lines 137-143). -/
def Job.mark_failed (j : Job) (error_message : String) (increment_retry : Bool)
    (now : Nat) : Job :=
  { j with
    status := JobStatus.failed
    error_message := some error_message
    retry_count := if increment_retry then j.retry_count + 1 else j.retry_count
    updated_at := now }

/-- `Job.mark_cancelled` (src/app/models/job.py lines 145-148). -/
def Job.mark_cancelled (j : Job) (now : Nat) : Job :=
  { j with status := JobStatus.cancelled, updated_at := now }

/-- `ValidationException` (src/app/core/exceptions.py lines 94-103):
a message and the optional field the error is scoped to. -/
structure Vexc where
  msg : String
  field : Option String
deriving DecidableEq, Repr

/-- The exception kinds the orchestrator distinguishes:
`ReplicateAPIException`, `StorageException`, `JobProcessingException`,
and any other unclassified exception. -/
inductive ExcKind where
  | replicate
  | storage
  | processing
  | other
deriving DecidableEq, Repr

/-- An exception as the orchestrator's handlers see it: its class and message. -/
structure Exc where
  kind : ExcKind
  msg : String
deriving DecidableEq, Repr

/-! ## Job service (src/app/services/job_service.py) -/

/-- The request schema fields the service reads
(src/app/schemas/generation.py): prompt, parameters, optional model. -/
structure GenerationRequest where
  prompt : String
  parameters : Params
  model : Option String
deriving DecidableEq, Repr

/-- `JobService._validate_generation_parameters`
(src/app/services/job_service.py lines 212-247): each present key is checked
in source order; a check fails when the value is not of the required runtime
type or is out of range. -/
def validate_generation_parameters (p : Params) : Option Vexc :=
  match p.width with
  | some (PVal.pint n) =>
      if n < 64 ∨ n > 2048 then
        some ⟨"Width must be an integer between 64 and 2048", some "parameters.width"⟩
      else validateHeight p
  | some _ => some ⟨"Width must be an integer between 64 and 2048", some "parameters.width"⟩
  | none => validateHeight p
where
  validateHeight (p : Params) : Option Vexc :=
    match p.height with
    | some (PVal.pint n) =>
        if n < 64 ∨ n > 2048 then
          some ⟨"Height must be an integer between 64 and 2048", some "parameters.height"⟩
        else validateSteps p
    | some _ => some ⟨"Height must be an integer between 64 and 2048", some "parameters.height"⟩
    | none => validateSteps p
  validateSteps (p : Params) : Option Vexc :=
    match p.num_inference_steps with
    | some (PVal.pint n) =>
        if n < 1 ∨ n > 150 then
          some ⟨"num_inference_steps must be an integer between 1 and 150",
            some "parameters.num_inference_steps"⟩
        else validateGuidance p
    | some _ => some ⟨"num_inference_steps must be an integer between 1 and 150",
        some "parameters.num_inference_steps"⟩
    | none => validateGuidance p
  validateGuidance (p : Params) : Option Vexc :=
    match p.guidance_scale with
    | some (PVal.pint n) =>
        if (n : ℚ) < 0 ∨ (n : ℚ) > 20 then
          some ⟨"guidance_scale must be a number between 0 and 20",
            some "parameters.guidance_scale"⟩
        else none
    | some (PVal.pfloat q) =>
        if q < 0 ∨ q > 20 then
          some ⟨"guidance_scale must be a number between 0 and 20",
            some "parameters.guidance_scale"⟩
        else none
    | some PVal.pother =>
        some ⟨"guidance_scale must be a number between 0 and 20",
          some "parameters.guidance_scale"⟩
    | none => none

/-- Python's `str.strip()` with no arguments: drop leading and trailing
whitespace.  (Embedded by structural recursion over the character list so
concrete instances compute.) -/
def pyStrip (s : String) : String :=
  ⟨((s.data.dropWhile Char.isWhitespace).reverse.dropWhile
      Char.isWhitespace).reverse⟩

/-- Python's `c in s` for a single-character needle `c` (the code tests
`"/" not in request.model`).  (Embedded over the character list so concrete
instances compute.) -/
def containsChar (s : String) (c : Char) : Bool :=
  s.data.contains c

/-- `JobService._validate_generation_request`
(src/app/services/job_service.py lines 192-210).  Note the Python truthiness
guard `if request.model and ...`: an absent (`None`) or empty-string model
skips the separator check.  The trailing `if request.parameters:` guard is a
no-op semantically (validating an empty mapping raises nothing), so the
parameter validator is invoked unconditionally here. -/
def validate_generation_request (req : GenerationRequest) : Option Vexc :=
  if pyStrip req.prompt = "" then
    some ⟨"Prompt cannot be empty", some "prompt"⟩
  else
    match req.model with
    | some m =>
        if m ≠ "" ∧ ¬ (containsChar m '/') then
          some ⟨"Model must be in format 'owner/model:version'", some "model"⟩
        else validate_generation_parameters req.parameters
    | none => validate_generation_parameters req.parameters

/-- `JobService.create_generation_job` (src/app/services/job_service.py
lines 24-54): validate, build the record (status PENDING, progress 0,
`retry_count` 0, `max_retries` from settings, `metadata["model"]` from the
request), persist it, enqueue the task and persist the task id.
The store is a list of persisted job records; `newId`, `taskId` and `now`
stand for the generated UUID, the Celery task id and the wall clock. -/
def create_generation_job (maxRetryAttempts : Nat) (newId taskId : String)
    (now : Nat) (req : GenerationRequest) (store : List Job) :
    Except Vexc (Job × List Job) :=
  match validate_generation_request req with
  | some e => Except.error e
  | none =>
      let job : Job :=
        { id := newId
          prompt := req.prompt
          parameters := req.parameters
          status := JobStatus.pending
          progress := 0
          result_url := none
          result_path := none
          file_size := none
          file_type := none
          error_message := none
          retry_count := 0
          max_retries := maxRetryAttempts
          replicate_prediction_id := none
          celery_task_id := none
          model_meta := req.model
          status_message := none
          created_at := now
          updated_at := now
          started_at := none
          completed_at := none }
      let job2 : Job := { job with celery_task_id := some taskId }
      Except.ok (job2, store ++ [job2])

/-- `JobService.cancel_job` (src/app/services/job_service.py lines 73-90).
The Celery `revoke` side effect is external and value-irrelevant. -/
def cancel_job (j : Job) (now : Nat) : Except Vexc Job :=
  if j.is_terminal_status then
    Except.error ⟨"Cannot cancel job in " ++ j.status.value ++ " status", some "status"⟩
  else
    Except.ok (j.mark_cancelled now)

/-- `JobService.retry_job` (src/app/services/job_service.py lines 92-117):
guard on `can_retry`, reset status/error/progress/timestamps, persist,
enqueue a fresh task and record its id. -/
def retry_job (j : Job) (taskId : String) (_now : Nat) : Except Vexc Job :=
  if j.can_retry then
    let j1 : Job :=
      { j with
        status := JobStatus.pending
        error_message := none
        progress := 0
        started_at := none
        completed_at := none }
    Except.ok { j1 with celery_task_id := some taskId }
  else
    Except.error
      ⟨"Job cannot be retried. Status: " ++ j.status.value ++ ", Retries: "
        ++ toString j.retry_count ++ "/" ++ toString j.max_retries, some "retry"⟩

/-! ## Repository pagination (src/app/repositories/job_repository.py) -/

/-- Insert one job into a list kept ordered by `created_at` descending. -/
def insertByCreatedDesc (j : Job) : List Job → List Job
  | [] => [j]
  | x :: xs =>
      if j.created_at ≤ x.created_at then x :: insertByCreatedDesc j xs
      else j :: x :: xs

/-- Sort by `created_at` descending (the `order_by(Job.created_at.desc())`
of the SQL query). -/
def sortByCreatedDesc (l : List Job) : List Job :=
  l.foldr insertByCreatedDesc []

/-- `JobRepository.get_all` (src/app/repositories/job_repository.py lines
43-58): optional status filter, order by `created_at` descending, then the
SQL `OFFSET`/`LIMIT` (which apply after ordering regardless of builder call
order).  Negative SQL limits/offsets are clamped at 0 rows skipped/taken. -/
def JobRepository.get_all (limit offset : Int) (status : Option JobStatus)
    (store : List Job) : List Job :=
  let filtered := match status with
    | some s => store.filter (fun j => decide (j.status = s))
    | none => store
  ((sortByCreatedDesc filtered).drop offset.toNat).take limit.toNat

/-- `JobService.get_job_list` (src/app/services/job_service.py lines 60-71):
delegates to `get_all` with the limit capped at 1000 and the offset clamped
to be non-negative. -/
def get_job_list (limit offset : Int) (status : Option JobStatus)
    (store : List Job) : List Job :=
  JobRepository.get_all (min limit 1000) (max offset 0) status store

/-! ## Orchestrator attempt (src/app/tasks/generation_tasks.py) -/

/-- A Replicate prediction as the orchestrator reads it: id, status string,
output URLs (`.get("output", [])` — absent output is the empty list) and
optional error detail. -/
structure Prediction where
  id : String
  status : String
  output : List String
  error : Option String
deriving DecidableEq, Repr

/-- One iteration of the polling loop as observed from outside: the wall
clock's `time.time() - start_time` at that iteration, and the prediction the
provider returned. -/
structure PollStep where
  elapsed : ℚ
  pred : Prediction
deriving DecidableEq, Repr

/-- The external world an attempt runs against: the wall clock, the outcome
of `create_prediction`, the successive `get_prediction` observations, the
outcome of `download_output` (the byte length of the media on success) and
of `upload_file` (`(storage_path, public_url)` on success).  Exhaustion of
`polls` marks the point where the wall clock passes the maximum wait. -/
structure Env where
  now : Nat
  createPrediction : Except Exc Prediction
  polls : List PollStep
  download : Except Exc Nat
  upload : Except Exc (String × String)

/-- `_update_job_progress` (src/app/tasks/generation_tasks.py lines
234-244): set the progress, record the status message in `metadata`, and
persist. -/
def update_job_progress (j : Job) (progress : ℚ) (message : String) : Job :=
  { j with
    progress := progress
    status_message := if message = "" then j.status_message else some message }

/-- The interpolated progress of one polling iteration
(src/app/tasks/generation_tasks.py line 218):
`min(0.2 + (elapsed / max_wait_time) * 0.7, 0.9)`. -/
def pollProgress (elapsed maxWait : ℚ) : ℚ :=
  min (0.2 + elapsed / maxWait * 0.7) 0.9

/-- `_determine_content_type` (src/app/tasks/generation_tasks.py lines
273-288). -/
def determine_content_type (url : String) : String :=
  let u := url.toLower
  if u.endsWith ".png" then "image/png"
  else if u.endsWith ".jpg" ∨ u.endsWith ".jpeg" then "image/jpeg"
  else if u.endsWith ".gif" then "image/gif"
  else if u.endsWith ".webp" then "image/webp"
  else if u.endsWith ".mp4" then "video/mp4"
  else "image/png"

/-- `_wait_for_prediction_with_progress` (src/app/tasks/generation_tasks.py
lines 199-231).  State: `last` is `last_progress_update`, `j` the job record
being mutated and persisted.  Each step first re-checks the wall-clock bound
(`while time.time() - start_time < max_wait_time`), then polls, computes the
interpolated progress, pushes it to the store only when it exceeds
`last + 0.1`, and stops on a terminal provider status.  Returns the raised
or returned outcome, the job as last persisted, and the pushed progress
values in order. -/
def wait_for_prediction (pid : String) (steps : List PollStep)
    (maxWait last : ℚ) (j : Job) : Except Exc Prediction × Job × List ℚ :=
  match steps with
  | [] =>
      (Except.error ⟨ExcKind.replicate,
        "Prediction " ++ pid ++ " timed out after max wait"⟩, j, [])
  | s :: rest =>
      if maxWait ≤ s.elapsed then
        (Except.error ⟨ExcKind.replicate,
          "Prediction " ++ pid ++ " timed out after max wait"⟩, j, [])
      else
        let progress := pollProgress s.elapsed maxWait
        if last + 0.1 < progress then
          let j1 := update_job_progress j progress
            ("Processing... (" ++ s.pred.status ++ ")")
          if s.pred.status = "succeeded" ∨ s.pred.status = "failed"
              ∨ s.pred.status = "canceled" then
            (Except.ok s.pred, j1, [progress])
          else
            let r := wait_for_prediction pid rest maxWait progress j1
            (r.1, r.2.1, progress :: r.2.2)
        else
          if s.pred.status = "succeeded" ∨ s.pred.status = "failed"
              ∨ s.pred.status = "canceled" then
            (Except.ok s.pred, j, [])
          else
            wait_for_prediction pid rest maxWait last j

/-- `_handle_retryable_error` (src/app/tasks/generation_tasks.py lines
247-260): increment `retry_count`, record the message, persist; if the
count has reached `max_retries`, additionally `mark_failed` (without a
second increment) and persist again.  Returns the final job and the list of
persisted snapshots, in order. -/
def handle_retryable_error (j : Job) (error_message : String) (now : Nat) :
    Job × List Job :=
  let j1 : Job := { j with retry_count := j.retry_count + 1,
                           error_message := some error_message }
  if j1.max_retries ≤ j1.retry_count then
    let j2 := j1.mark_failed error_message false now
    (j2, [j1, j2])
  else
    (j1, [j1])

/-- `_handle_fatal_error` (src/app/tasks/generation_tasks.py lines
263-270): `mark_failed` without incrementing the retry count, persist. -/
def handle_fatal_error (j : Job) (error_message : String) (now : Nat) : Job :=
  j.mark_failed error_message false now

/-- What one orchestrator attempt produced: the value returned or exception
raised by `_generate_media_async`, the job record as last persisted, and
the progress value of every snapshot persisted through the job store, in
order. -/
structure AttemptResult where
  outcome : Except Exc String
  job : Job
  trace : List ℚ
deriving Repr

/-- The `try` body of `_generate_media_async`
(src/app/tasks/generation_tasks.py lines 90-183), before its exception
handlers: guard that the job is PENDING, claim it, create the prediction,
persist the prediction id, poll to a terminal provider status, check for
success and a non-empty output, download, upload, `mark_completed`.
An error result carries the raised exception together with the job record
and persisted-progress trace at the point of the raise. -/
def generate_media_body (env : Env) (job0 : Job) :
    Except (Exc × Job × List ℚ) (Job × List ℚ) :=
  if job0.status ≠ JobStatus.pending then
    Except.error (⟨ExcKind.processing,
      "Job " ++ job0.id ++ " is not in pending status: " ++ job0.status.value⟩,
      job0, [])
  else
    let j1 := job0.mark_processing env.now
    let j2 := update_job_progress j1 0.1 "Creating prediction..."
    match env.createPrediction with
    | Except.error e => Except.error (e, j2, [j1.progress, j2.progress])
    | Except.ok pred =>
        let j3 : Job := { j2 with replicate_prediction_id := some pred.id }
        let j4 := update_job_progress j3 0.2 "Processing..."
        let pre : List ℚ := [j1.progress, j2.progress, j3.progress, j4.progress]
        match wait_for_prediction pred.id env.polls 300 0.2 j4 with
        | (Except.error e, j5, pushes) => Except.error (e, j5, pre ++ pushes)
        | (Except.ok pred2, j5, pushes) =>
            if pred2.status ≠ "succeeded" then
              Except.error (⟨ExcKind.replicate,
                "Prediction failed: " ++ pred2.error.getD "Unknown error"⟩,
                j5, pre ++ pushes)
            else
              let j6 := update_job_progress j5 0.9 "Downloading result..."
              let tr6 := pre ++ pushes ++ [j6.progress]
              match pred2.output with
              | [] => Except.error (⟨ExcKind.replicate, "No output generated"⟩, j6, tr6)
              | url :: _ =>
                  match env.download with
                  | Except.error e => Except.error (e, j6, tr6)
                  | Except.ok nbytes =>
                      let ct := determine_content_type url
                      let j7 := update_job_progress j6 0.95 "Saving to storage..."
                      match env.upload with
                      | Except.error e => Except.error (e, j7, tr6 ++ [j7.progress])
                      | Except.ok (path, publicUrl) =>
                          let j8 := j7.mark_completed publicUrl path (some nbytes)
                            (some ct) env.now
                          Except.ok (j8, tr6 ++ [j7.progress, j8.progress])

/-- `_generate_media_async` (src/app/tasks/generation_tasks.py lines
83-196), one orchestrator attempt: run the body, then apply its exception
handlers: a `ReplicateAPIException` or `StorageException` goes through
`_handle_retryable_error` and is re-raised (Celery's `autoretry_for` then
owns it); anything else goes through `_handle_fatal_error` and is re-raised
wrapped as a `JobProcessingException`. -/
def generate_media_async (env : Env) (job0 : Job) : AttemptResult :=
  match generate_media_body env job0 with
  | Except.ok (j, tr) => ⟨Except.ok "completed", j, tr⟩
  | Except.error (e, j, tr) =>
      if e.kind = ExcKind.replicate ∨ e.kind = ExcKind.storage then
        let r := handle_retryable_error j e.msg env.now
        ⟨Except.error e, r.1, tr ++ r.2.map (fun x => x.progress)⟩
      else
        let j1 := handle_fatal_error j e.msg env.now
        ⟨Except.error ⟨ExcKind.processing, "Job processing failed: " ++ e.msg⟩,
          j1, tr ++ [j1.progress]⟩

/-! ## Concrete fixtures used by witnesses and counterexamples -/

/-- A freshly created pending job. -/
def baseJob : Job :=
  { id := "job-1"
    prompt := "a cat"
    parameters := {}
    status := JobStatus.pending
    progress := 0
    result_url := none
    result_path := none
    file_size := none
    file_type := none
    error_message := none
    retry_count := 0
    max_retries := 3
    replicate_prediction_id := none
    celery_task_id := none
    model_meta := some "owner/model"
    status_message := none
    created_at := 0
    updated_at := 0
    started_at := none
    completed_at := none }

/-- A FAILED job, below its retry ceiling, that carries result fields
(reachable: `mark_job_failed` has no status guard and `mark_failed` does not
clear results). -/
def failedJobWithResult : Job :=
  { baseJob with
    status := JobStatus.failed
    progress := 0.8
    retry_count := 1
    error_message := some "boom"
    result_url := some "http://res"
    result_path := some "res.png"
    file_size := some 42
    file_type := some "image/png" }

/-- A FAILED job whose retry ceiling is exhausted. -/
def failedJobExhausted : Job :=
  { baseJob with status := JobStatus.failed, retry_count := 3, max_retries := 3 }

/-- A COMPLETED job. -/
def completedJob : Job :=
  { baseJob with
    status := JobStatus.completed
    progress := 1
    result_url := some "http://res"
    result_path := some "res.png"
    file_size := some 42
    file_type := some "image/png" }

/-- A small job store. -/
def demoStore : List Job := [baseJob, completedJob]

/-- The acceptance condition of the integer-parameter checks
(`_validate_generation_parameters`): the value is a Python `int` within
`[lo, hi]`. -/
def int_param_ok (lo hi : Int) : PVal → Bool
  | PVal.pint n => decide (lo ≤ n) && decide (n ≤ hi)
  | _ => false

/-- The acceptance condition of the `guidance_scale` check: a Python `int`
or `float` within `[lo, hi]`. -/
def num_param_ok (lo hi : ℚ) : PVal → Bool
  | PVal.pint n => decide (lo ≤ (n : ℚ)) && decide ((n : ℚ) ≤ hi)
  | PVal.pfloat q => decide (lo ≤ q) && decide (q ≤ hi)
  | PVal.pother => false

/-- A creation request whose model is the empty string: the Python
truthiness guard `if request.model and ...` skips the separator check. -/
def reqEmptyModel : GenerationRequest :=
  { prompt := "a sunset", parameters := {}, model := some "" }

/-- A creation request whose prompt is blank after trimming. -/
def reqEmptyPrompt : GenerationRequest :=
  { prompt := "   ", parameters := {}, model := none }

/-- A creation request with an out-of-range width. -/
def reqBadWidth : GenerationRequest :=
  { prompt := "ok", parameters := { width := some (PVal.pint 4000) },
    model := some "owner/model" }

/-- An environment whose externals all fail (never reached on the
non-PENDING path). -/
def env0 : Env :=
  { now := 7
    createPrediction := Except.error ⟨ExcKind.replicate, "net"⟩
    polls := []
    download := Except.error ⟨ExcKind.replicate, "net"⟩
    upload := Except.error ⟨ExcKind.storage, "net"⟩ }

/-- The prediction the provider reports as succeeded but with no output. -/
def predNoOutput : Prediction :=
  { id := "pred-1", status := "succeeded", output := [], error := none }

/-- An environment in which the provider accepts the prediction and the
first poll reports terminal status "succeeded" with an empty output list. -/
def envNoOutput : Env :=
  { now := 7
    createPrediction := Except.ok predNoOutput
    polls := [{ elapsed := 0, pred := predNoOutput }]
    download := Except.error ⟨ExcKind.other, "unreached"⟩
    upload := Except.error ⟨ExcKind.other, "unreached"⟩ }

/-- A job currently being processed by an attempt. -/
def processingJob : Job :=
  { baseJob with status := JobStatus.processing, started_at := some 1 }

/-- The job record held by the attempt when polling starts: claimed,
progress 0.1 pushed, prediction id recorded, progress 0.2 pushed. -/
def jobAtPolling (env : Env) (j : Job) (pid : String) : Job :=
  update_job_progress
    ({ (update_job_progress (j.mark_processing env.now) 0.1
          "Creating prediction...") with
       replicate_prediction_id := some pid })
    0.2 "Processing..."

/-! ## Claim theorems -/

/-- C7: `cancel_job` fails with a `ValidationError` on field "status" iff
the job's current status is terminal (COMPLETED, FAILED or CANCELLED);
otherwise it succeeds and sets the status to CANCELLED. -/
theorem c7_cancel_iff_terminal (j : Job) (now : Nat) :
    ((∃ e, cancel_job j now = Except.error e ∧ e.field = some "status")
      ↔ j.is_terminal_status = true) ∧
    (j.is_terminal_status = false →
      cancel_job j now = Except.ok (j.mark_cancelled now) ∧
      (j.mark_cancelled now).status = JobStatus.cancelled) := by
  cases h : j.is_terminal_status with
  | false =>
      refine ⟨⟨?_, ?_⟩, ?_⟩
      · rintro ⟨e, he, -⟩
        rw [cancel_job, h] at he
        simp at he
      · intro ht; exact absurd ht (by simp [h])
      · intro _
        exact ⟨by rw [cancel_job, h]; rfl, by simp [Job.mark_cancelled]⟩
  | true =>
      refine ⟨⟨fun _ => rfl, fun _ => ?_⟩, ?_⟩
      · refine ⟨⟨"Cannot cancel job in " ++ j.status.value ++ " status",
          some "status"⟩, ?_, rfl⟩
        rw [cancel_job, h]
        rfl
      · intro hf
        exact absurd hf (by decide)

/-- C7 witness: cancelling the pending `baseJob` succeeds and yields
CANCELLED; cancelling the terminal `completedJob` fails on field "status". -/
theorem c7_witness :
    (cancel_job baseJob 3 = Except.ok (baseJob.mark_cancelled 3) ∧
      (baseJob.mark_cancelled 3).status = JobStatus.cancelled) ∧
    (∃ e, cancel_job completedJob 3 = Except.error e ∧ e.field = some "status") :=
  ⟨(c7_cancel_iff_terminal baseJob 3).2 rfl,
   (c7_cancel_iff_terminal completedJob 3).1.mpr rfl⟩

/-- C6 counterexample: `mark_completed` does not require PROCESSING — on a
PENDING job it succeeds and sets the status to COMPLETED, refuting
"succeeds only when the job's current status is PROCESSING". -/
theorem c6_counterexample :
    baseJob.status ≠ JobStatus.processing ∧
    (baseJob.mark_completed "http://u" "p/u.png" (some 5) (some "image/png") 1).status
      = JobStatus.completed := by
  exact ⟨by decide, rfl⟩

/-- C6 amended: `mark_completed` performs no status check; from any status
it sets COMPLETED, progress 1.0, stores the result locator, storage path,
byte size and content type, and sets `completed_at`. -/
theorem c6_mark_completed_sets_result (j : Job) (url path : String)
    (size : Option Nat) (ctype : Option String) (now : Nat) :
    (j.mark_completed url path size ctype now).status = JobStatus.completed ∧
    (j.mark_completed url path size ctype now).progress = 1 ∧
    (j.mark_completed url path size ctype now).result_url = some url ∧
    (j.mark_completed url path size ctype now).result_path = some path ∧
    (j.mark_completed url path size ctype now).file_size = size ∧
    (j.mark_completed url path size ctype now).file_type = ctype ∧
    (j.mark_completed url path size ctype now).completed_at = some now := by
  simp [Job.mark_completed]

/-- C2 counterexample: `retry_job` on a retry-eligible FAILED job does NOT
clear the result fields — they survive the reset, refuting "clears the
result fields (result locator/path/size/type)". -/
theorem c2_counterexample :
    failedJobWithResult.status = JobStatus.failed ∧
    failedJobWithResult.retry_count < failedJobWithResult.max_retries ∧
    ∃ j2, retry_job failedJobWithResult "task-2" 5 = Except.ok j2 ∧
      j2.result_url = some "http://res" ∧ j2.result_path = some "res.png" ∧
      j2.file_size = some 42 ∧ j2.file_type = some "image/png" :=
  ⟨rfl, by decide, _, rfl, rfl, rfl, rfl, rfl⟩

/-- C2 amended: for a FAILED job with `retry_count < max_retries`,
`retry_job` resets status to PENDING and progress to 0.0, clears
`error_message`, `started_at` and `completed_at`, preserves `retry_count`
and `max_retries`, and leaves the result fields (locator, path, size, type)
unchanged (it does not clear them). -/
theorem c2_retry_resets (j : Job) (taskId : String) (now : Nat)
    (hst : j.status = JobStatus.failed) (hrc : j.retry_count < j.max_retries) :
    ∃ j2, retry_job j taskId now = Except.ok j2 ∧
      j2.status = JobStatus.pending ∧ j2.progress = 0 ∧
      j2.error_message = none ∧ j2.started_at = none ∧ j2.completed_at = none ∧
      j2.retry_count = j.retry_count ∧ j2.max_retries = j.max_retries ∧
      j2.result_url = j.result_url ∧ j2.result_path = j.result_path ∧
      j2.file_size = j.file_size ∧ j2.file_type = j.file_type := by
  have hcr : j.can_retry = true := by
    simp [Job.can_retry, hst, hrc]
  rw [retry_job, hcr]
  exact ⟨_, rfl, rfl, rfl, rfl, rfl, rfl, rfl, rfl, rfl, rfl, rfl, rfl⟩

/-- C2 witness: the reset applied to the concrete `failedJobWithResult`. -/
theorem c2_witness :
    ∃ j2, retry_job failedJobWithResult "task-2" 5 = Except.ok j2 ∧
      j2.status = JobStatus.pending ∧ j2.progress = 0 ∧ j2.error_message = none := by
  obtain ⟨j2, h1, h2, h3, h4, -⟩ :=
    c2_retry_resets failedJobWithResult "task-2" 5 rfl (by decide)
  exact ⟨j2, h1, h2, h3, h4⟩

/-- Facts about `_handle_retryable_error`: the final job has the
incremented retry count and the recorded message, keeps `max_retries` and
`progress`; every persisted snapshot keeps the progress; the final status
is FAILED exactly when the incremented count reached the ceiling, otherwise
the incoming status is kept. -/
lemma handle_retryable_facts (j : Job) (msg : String) (now : Nat) :
    (handle_retryable_error j msg now).1.retry_count = j.retry_count + 1 ∧
    (handle_retryable_error j msg now).1.error_message = some msg ∧
    (handle_retryable_error j msg now).1.max_retries = j.max_retries ∧
    (handle_retryable_error j msg now).1.progress = j.progress ∧
    (∀ x ∈ (handle_retryable_error j msg now).2, x.progress = j.progress) ∧
    (j.max_retries ≤ j.retry_count + 1 →
      (handle_retryable_error j msg now).1.status = JobStatus.failed) ∧
    (j.retry_count + 1 < j.max_retries →
      (handle_retryable_error j msg now).1.status = j.status) := by
  by_cases hc : j.max_retries ≤ j.retry_count + 1
  · refine ⟨?_, ?_, ?_, ?_, ?_, fun _ => ?_, fun hlt => absurd hc (by omega)⟩ <;>
      simp [handle_retryable_error, hc, Job.mark_failed]
  · refine ⟨?_, ?_, ?_, ?_, ?_, fun hge => absurd hge hc, fun _ => ?_⟩ <;>
      simp [handle_retryable_error, hc, Job.mark_failed]

/-- C4: every operation that touches retry accounting keeps
`retry_count ≤ max_retries` whenever the resulting status is not FAILED
(creation establishes it; `mark_failed`, `_handle_retryable_error` and
`retry_job` preserve it), and a FAILED job with `retry_count = max_retries`
is rejected by `retry_job` with a field-scoped error. -/
theorem c4_retry_ceiling_invariant :
    (∀ mr nid tid now req store j st,
        create_generation_job mr nid tid now req store = Except.ok (j, st) →
        j.retry_count ≤ j.max_retries) ∧
    (∀ (j : Job) msg inc now, (j.mark_failed msg inc now).status ≠ JobStatus.failed →
        (j.mark_failed msg inc now).retry_count ≤ (j.mark_failed msg inc now).max_retries) ∧
    (∀ (j : Job) msg now, (handle_retryable_error j msg now).1.status ≠ JobStatus.failed →
        (handle_retryable_error j msg now).1.retry_count
          ≤ (handle_retryable_error j msg now).1.max_retries) ∧
    (∀ (j : Job) tid now j2, retry_job j tid now = Except.ok j2 →
        j2.retry_count ≤ j2.max_retries) ∧
    (∀ (j : Job) tid now, j.status = JobStatus.failed →
        j.retry_count = j.max_retries →
        ∃ e, retry_job j tid now = Except.error e ∧ e.field = some "retry") := by
  refine ⟨?_, ?_, ?_, ?_, ?_⟩
  · intro mr nid tid now req store j st h
    cases hv : validate_generation_request req with
    | some e => rw [create_generation_job, hv] at h; cases h
    | none =>
        rw [create_generation_job, hv] at h
        simp only [Except.ok.injEq, Prod.mk.injEq] at h
        obtain ⟨rfl, rfl⟩ := h
        exact Nat.zero_le _
  · intro j msg inc now h
    exact absurd rfl h
  · intro j msg now h
    obtain ⟨-, -, hmax, -, -, hceil, hkeep⟩ := handle_retryable_facts j msg now
    by_cases hc : j.max_retries ≤ j.retry_count + 1
    · exact absurd (hceil hc) h
    · have := handle_retryable_facts j msg now
      rw [this.1, hmax]
      omega
  · intro j tid now j2 h
    cases hcr : j.can_retry with
    | false => rw [retry_job, hcr] at h; cases h
    | true =>
        rw [retry_job, if_pos hcr] at h
        simp only [Except.ok.injEq] at h
        subst h
        have hlt : j.retry_count < j.max_retries := by
          have h2 := hcr
          simp [Job.can_retry] at h2
          exact h2.2
        exact Nat.le_of_lt hlt
  · intro j tid now hst hrc
    have hcr : j.can_retry = false := by
      simp [Job.can_retry, hst, hrc]
    rw [retry_job, hcr]
    exact ⟨_, rfl, rfl⟩

/-- C4 witness: the exhausted FAILED job is rejected by `retry_job`, and a
fresh creation satisfies the invariant. -/
theorem c4_witness :
    ∃ e, retry_job failedJobExhausted "t" 0 = Except.error e ∧
      e.field = some "retry" :=
  c4_retry_ceiling_invariant.2.2.2.2 failedJobExhausted "t" 0 rfl rfl

/-- A validation error makes `create_generation_job` return it unchanged,
before any job is persisted. -/
lemma create_error_of_validate (mr : Nat) (nid tid : String) (now : Nat)
    (req : GenerationRequest) (store : List Job) (e : Vexc)
    (h : validate_generation_request req = some e) :
    create_generation_job mr nid tid now req store = Except.error e ∧
    ∀ r, create_generation_job mr nid tid now req store ≠ Except.ok r := by
  rw [create_generation_job, h]
  exact ⟨rfl, fun r hr => by cases hr⟩

/-- Every error produced by the parameter validator carries a field. -/
lemma validate_params_field (p : Params) (e : Vexc)
    (h : validate_generation_parameters p = some e) : e.field ≠ none := by
  unfold validate_generation_parameters validate_generation_parameters.validateHeight
    validate_generation_parameters.validateSteps
    validate_generation_parameters.validateGuidance at h
  repeat' split at h
  all_goals try (injection h with h)
  all_goals first
    | (rw [← h]; simp)
    | simp_all

/-- Every error produced by request validation carries a field. -/
lemma validate_request_field (req : GenerationRequest) (e : Vexc)
    (h : validate_generation_request req = some e) : e.field ≠ none := by
  unfold validate_generation_request at h
  repeat' split at h
  all_goals try (injection h with h)
  all_goals first
    | exact validate_params_field _ _ h
    | (rw [← h]; simp)

/-- If the `guidance_scale` check accepts, a present value satisfies the
acceptance condition. -/
lemma vguidance_none (p : Params)
    (h : validate_generation_parameters.validateGuidance p = none) :
    ∀ v, p.guidance_scale = some v → num_param_ok 0 20 v = true := by
  intro v hv
  rcases v with n | q | _
  · simp only [validate_generation_parameters.validateGuidance, hv] at h
    rw [num_param_ok]
    split at h
    · simp at h
    · next hc =>
        push_neg at hc
        simp [hc.1, hc.2]
  · simp only [validate_generation_parameters.validateGuidance, hv] at h
    rw [num_param_ok]
    split at h
    · simp at h
    · next hc =>
        push_neg at hc
        simp [hc.1, hc.2]
  · simp only [validate_generation_parameters.validateGuidance, hv] at h
    simp at h

/-- If the `num_inference_steps` check accepts, the remaining chain accepts
and a present value satisfies the acceptance condition. -/
lemma vsteps_none (p : Params)
    (h : validate_generation_parameters.validateSteps p = none) :
    validate_generation_parameters.validateGuidance p = none ∧
    ∀ v, p.num_inference_steps = some v → int_param_ok 1 150 v = true := by
  rcases hm : p.num_inference_steps with - | v
  · simp only [validate_generation_parameters.validateSteps, hm] at h
    refine ⟨h, fun v hv => ?_⟩
    simp at hv
  · rcases v with n | q | _
    · simp only [validate_generation_parameters.validateSteps, hm] at h
      split at h
      · simp at h
      · next hc =>
          push_neg at hc
          refine ⟨h, fun v hv => ?_⟩
          simp only [Option.some.injEq] at hv
          subst hv
          rw [int_param_ok]
          simp [hc.1, hc.2]
    · simp only [validate_generation_parameters.validateSteps, hm] at h
      simp at h
    · simp only [validate_generation_parameters.validateSteps, hm] at h
      simp at h

/-- If the `height` check accepts, the remaining chain accepts and a
present value satisfies the acceptance condition. -/
lemma vheight_none (p : Params)
    (h : validate_generation_parameters.validateHeight p = none) :
    validate_generation_parameters.validateSteps p = none ∧
    ∀ v, p.height = some v → int_param_ok 64 2048 v = true := by
  rcases hm : p.height with - | v
  · simp only [validate_generation_parameters.validateHeight, hm] at h
    refine ⟨h, fun v hv => ?_⟩
    simp at hv
  · rcases v with n | q | _
    · simp only [validate_generation_parameters.validateHeight, hm] at h
      split at h
      · simp at h
      · next hc =>
          push_neg at hc
          refine ⟨h, fun v hv => ?_⟩
          simp only [Option.some.injEq] at hv
          subst hv
          rw [int_param_ok]
          simp [hc.1, hc.2]
    · simp only [validate_generation_parameters.validateHeight, hm] at h
      simp at h
    · simp only [validate_generation_parameters.validateHeight, hm] at h
      simp at h

/-- If the parameter validator accepts, every present parameter satisfies
its acceptance condition. -/
lemma validate_params_none_ok (p : Params)
    (h : validate_generation_parameters p = none) :
    (∀ v, p.width = some v → int_param_ok 64 2048 v = true) ∧
    (∀ v, p.height = some v → int_param_ok 64 2048 v = true) ∧
    (∀ v, p.num_inference_steps = some v → int_param_ok 1 150 v = true) ∧
    (∀ v, p.guidance_scale = some v → num_param_ok 0 20 v = true) := by
  have hw : validate_generation_parameters.validateHeight p = none ∧
      ∀ v, p.width = some v → int_param_ok 64 2048 v = true := by
    rcases hm : p.width with - | v
    · simp only [validate_generation_parameters, hm] at h
      refine ⟨h, fun v hv => ?_⟩
      simp at hv
    · rcases v with n | q | _
      · simp only [validate_generation_parameters, hm] at h
        split at h
        · simp at h
        · next hc =>
            push_neg at hc
            refine ⟨h, fun v hv => ?_⟩
            simp only [Option.some.injEq] at hv
            subst hv
            rw [int_param_ok]
            simp [hc.1, hc.2]
      · simp only [validate_generation_parameters, hm] at h
        simp at h
      · simp only [validate_generation_parameters, hm] at h
        simp at h
  obtain ⟨hh, hwok⟩ := hw
  obtain ⟨hs, hhok⟩ := vheight_none p hh
  obtain ⟨hg, hsok⟩ := vsteps_none p hs
  exact ⟨hwok, hhok, hsok, vguidance_none p hg⟩

/-- If request validation accepts: the prompt is non-blank, any provided
model is empty or contains the separator, and the parameters validate. -/
lemma validate_request_none_ok (req : GenerationRequest)
    (h : validate_generation_request req = none) :
    pyStrip req.prompt ≠ "" ∧
    (∀ m, req.model = some m → m = "" ∨ containsChar m '/' = true) ∧
    validate_generation_parameters req.parameters = none := by
  unfold validate_generation_request at h
  split at h
  · cases h
  · next hprompt =>
      refine ⟨hprompt, ?_⟩
      split at h
      · next m heq =>
          split at h
          · cases h
          · next hcond =>
              refine ⟨?_, h⟩
              intro m2 hm2
              rw [heq] at hm2
              simp only [Option.some.injEq] at hm2
              subst hm2
              by_cases hme : m = ""
              · exact Or.inl hme
              · right
                by_contra hnc
                exact hcond ⟨hme, by simpa using hnc⟩
      · next heq =>
          exact ⟨fun m2 hm2 => absurd (heq ▸ hm2) (by simp), h⟩

/-- C8 counterexample: a request whose model identifier (the empty string)
lacks the "/" separator is NOT rejected — `create_generation_job` succeeds
and persists the job, because the separator check sits behind the Python
truthiness guard `if request.model and ...`. -/
theorem c8_counterexample :
    (∃ m, reqEmptyModel.model = some m ∧ containsChar m '/' = false) ∧
    ∃ r, create_generation_job 3 "id-1" "task-1" 0 reqEmptyModel []
      = Except.ok r :=
  ⟨⟨"", rfl, rfl⟩, ⟨_, rfl⟩⟩

/-- C8 amended: an empty-after-trimming prompt makes
`create_generation_job` raise a ValidationError on field "prompt" and never
persist a job; a range violation in width, height, inference-step count or
guidance scale, or a NON-EMPTY model identifier lacking the "/" separator,
is rejected with a field-scoped ValidationError before any persistence
(an absent or empty model identifier skips the separator check). -/
theorem c8_validation_rejects (mr : Nat) (nid tid : String) (now : Nat)
    (req : GenerationRequest) (store : List Job) :
    (pyStrip req.prompt = "" →
      create_generation_job mr nid tid now req store
        = Except.error ⟨"Prompt cannot be empty", some "prompt"⟩ ∧
      ∀ r, create_generation_job mr nid tid now req store ≠ Except.ok r) ∧
    (((∃ v, req.parameters.width = some v ∧ int_param_ok 64 2048 v = false) ∨
      (∃ v, req.parameters.height = some v ∧ int_param_ok 64 2048 v = false) ∨
      (∃ v, req.parameters.num_inference_steps = some v ∧
        int_param_ok 1 150 v = false) ∨
      (∃ v, req.parameters.guidance_scale = some v ∧
        num_param_ok 0 20 v = false) ∨
      (∃ m, req.model = some m ∧ m ≠ "" ∧ containsChar m '/' = false)) →
      ∃ e, create_generation_job mr nid tid now req store = Except.error e ∧
        e.field ≠ none ∧
        ∀ r, create_generation_job mr nid tid now req store ≠ Except.ok r) := by
  constructor
  · intro hp
    have hv : validate_generation_request req
        = some ⟨"Prompt cannot be empty", some "prompt"⟩ := by
      unfold validate_generation_request
      rw [if_pos hp]
    exact create_error_of_validate mr nid tid now req store _ hv
  · intro hbad
    cases hve : validate_generation_request req with
    | some e =>
        obtain ⟨h1, h2⟩ := create_error_of_validate mr nid tid now req store e hve
        exact ⟨e, h1, validate_request_field req e hve, h2⟩
    | none =>
        exfalso
        obtain ⟨hp, hmodel, hparams⟩ := validate_request_none_ok req hve
        obtain ⟨hwok, hhok, hsok, hgok⟩ :=
          validate_params_none_ok req.parameters hparams
        rcases hbad with ⟨v, hv, hbad⟩ | ⟨v, hv, hbad⟩ | ⟨v, hv, hbad⟩
          | ⟨v, hv, hbad⟩ | ⟨m, hm, hne, hbad⟩
        · rw [hwok v hv] at hbad; simp at hbad
        · rw [hhok v hv] at hbad; simp at hbad
        · rw [hsok v hv] at hbad; simp at hbad
        · rw [hgok v hv] at hbad; simp at hbad
        · rcases hmodel m hm with rfl | hc
          · exact hne rfl
          · rw [hc] at hbad; simp at hbad

/-- C8 witness: the blank-prompt request is rejected on field "prompt";
the out-of-range-width request is rejected with a field-scoped error. -/
theorem c8_witness :
    (create_generation_job 3 "i" "t" 0 reqEmptyPrompt []
      = Except.error ⟨"Prompt cannot be empty", some "prompt"⟩) ∧
    ∃ e, create_generation_job 3 "i" "t" 0 reqBadWidth [] = Except.error e ∧
      e.field ≠ none := by
  constructor
  · exact ((c8_validation_rejects 3 "i" "t" 0 reqEmptyPrompt []).1 (by decide)).1
  · obtain ⟨e, h1, h2, h3⟩ := (c8_validation_rejects 3 "i" "t" 0 reqBadWidth []).2
      (Or.inl ⟨PVal.pint 4000, rfl, by decide⟩)
    exact ⟨e, h1, h2⟩

/-- C10: `get_job_list` issues the store query with effective limit
`min(limit, 1000)` and effective offset `max(offset, 0)`; consequently at
most 1000 jobs are ever returned and a negative offset behaves exactly as
offset 0. -/
theorem c10_job_list_pagination (limit offset : Int) (status : Option JobStatus)
    (store : List Job) :
    get_job_list limit offset status store
      = JobRepository.get_all (min limit 1000) (max offset 0) status store ∧
    (get_job_list limit offset status store).length ≤ 1000 ∧
    (offset < 0 →
      get_job_list limit offset status store = get_job_list limit 0 status store) := by
  refine ⟨rfl, ?_, ?_⟩
  · have h1 := List.length_take_le (min limit 1000).toNat
      ((sortByCreatedDesc (match status with
        | some s => store.filter (fun j => decide (j.status = s))
        | none => store)).drop (max offset 0).toNat)
    have h2 : (min limit 1000).toNat ≤ 1000 := by omega
    exact le_trans h1 h2
  · intro h
    have : max offset 0 = max (0 : Int) 0 := by omega
    rw [get_job_list, get_job_list, this]

/-- C10 witness: a request for 2000 jobs at offset -5 over the demo store. -/
theorem c10_witness :
    (get_job_list 2000 (-5) none demoStore).length ≤ 1000 ∧
    get_job_list 2000 (-5) none demoStore = get_job_list 2000 0 none demoStore :=
  ⟨(c10_job_list_pagination 2000 (-5) none demoStore).2.1,
   (c10_job_list_pagination 2000 (-5) none demoStore).2.2 (by decide)⟩

/-- Any attempt on a non-PENDING job: the guard's
`JobProcessingException` is caught by the task's own broad
`except Exception` handler, which runs `_handle_fatal_error` — the job is
marked FAILED with the guard's message (no retry increment) and the wrapped
exception is re-raised. -/
lemma attempt_nonpending (env : Env) (j : Job) (h : j.status ≠ JobStatus.pending) :
    generate_media_async env j =
      ⟨Except.error ⟨ExcKind.processing,
        "Job processing failed: " ++
          ("Job " ++ j.id ++ " is not in pending status: " ++ j.status.value)⟩,
       j.mark_failed
         ("Job " ++ j.id ++ " is not in pending status: " ++ j.status.value)
         false env.now,
       [j.progress]⟩ := by
  rw [generate_media_async, generate_media_body, if_pos h]
  rfl

/-- C1 counterexample: running the orchestrator attempt on the COMPLETED
`completedJob` is rejected, but the rejected attempt does NOT leave the
job's state unchanged — the status flips from COMPLETED to FAILED. -/
theorem c1_counterexample :
    completedJob.status ≠ JobStatus.pending ∧
    (generate_media_async env0 completedJob).job.status ≠ completedJob.status := by
  refine ⟨by decide, ?_⟩
  rw [attempt_nonpending env0 completedJob (by decide)]
  decide

/-- C1 amended: on a job whose status is not PENDING, the attempt raises
(a `JobProcessingException`) without double-processing, and leaves
progress, the result fields and `retry_count` unchanged — but it does NOT
leave status and `error_message` unchanged: the broad exception handler
marks the job FAILED and records the guard's message. -/
theorem c1_nonpending_attempt (env : Env) (j : Job)
    (h : j.status ≠ JobStatus.pending) :
    (∃ e, (generate_media_async env j).outcome = Except.error e ∧
      e.kind = ExcKind.processing) ∧
    (generate_media_async env j).job.progress = j.progress ∧
    (generate_media_async env j).job.retry_count = j.retry_count ∧
    (generate_media_async env j).job.result_url = j.result_url ∧
    (generate_media_async env j).job.result_path = j.result_path ∧
    (generate_media_async env j).job.file_size = j.file_size ∧
    (generate_media_async env j).job.file_type = j.file_type ∧
    (generate_media_async env j).job.status = JobStatus.failed ∧
    (generate_media_async env j).job.error_message
      = some ("Job " ++ j.id ++ " is not in pending status: " ++ j.status.value) := by
  rw [attempt_nonpending env j h]
  exact ⟨⟨_, rfl, rfl⟩, rfl, rfl, rfl, rfl, rfl, rfl, rfl, rfl⟩

/-- C1 witness: the amended behaviour at the concrete COMPLETED job. -/
theorem c1_witness :
    (generate_media_async env0 completedJob).job.status = JobStatus.failed ∧
    (generate_media_async env0 completedJob).job.retry_count
      = completedJob.retry_count ∧
    (generate_media_async env0 completedJob).job.result_url
      = completedJob.result_url := by
  obtain ⟨-, -, h2, h3, -, -, -, h7, -⟩ :=
    c1_nonpending_attempt env0 completedJob (by decide)
  exact ⟨h7, h2, h3⟩

/-- The interpolated progress of the first poll iteration: elapsed 0 over a
300-second window yields exactly the 0.2 floor. -/
lemma pollProgress_zero : pollProgress 0 300 = 0.2 := by
  rw [pollProgress, min_eq_left (by norm_num)]
  norm_num

/-- A single poll step at elapsed 0 that reports a terminal status returns
that prediction without pushing a progress update (0.2 has not advanced by
more than 0.1). -/
lemma wait_single_terminal (pid : String) (pr : Prediction) (j : Job)
    (hterm : pr.status = "succeeded" ∨ pr.status = "failed"
      ∨ pr.status = "canceled") :
    wait_for_prediction pid [{ elapsed := 0, pred := pr }] 300 0.2 j
      = (Except.ok pr, j, []) := by
  simp only [wait_for_prediction]
  rw [if_neg (by norm_num)]
  rw [if_neg (by rw [pollProgress_zero]; norm_num)]
  rw [if_pos hterm]

/-- C3 evidence: on a transient error, `_handle_retryable_error` increments
`retry_count` by 1 and records the message; if the incremented count
reached `max_retries` the job transitions directly to FAILED; but
otherwise the job is NOT left in a state from which a subsequent attempt
can run — its status remains PROCESSING (never reset to PENDING), so
`can_retry` is false and the re-enqueued attempt is rejected by the PENDING
guard and marks the job FAILED. -/
theorem c3_transient_leaves_processing (j : Job) (msg : String) (now : Nat)
    (env : Env) (hs : j.status = JobStatus.processing) :
    (handle_retryable_error j msg now).1.retry_count = j.retry_count + 1 ∧
    (handle_retryable_error j msg now).1.error_message = some msg ∧
    (j.max_retries ≤ j.retry_count + 1 →
      (handle_retryable_error j msg now).1.status = JobStatus.failed) ∧
    (j.retry_count + 1 < j.max_retries →
      (handle_retryable_error j msg now).1.status = JobStatus.processing ∧
      (handle_retryable_error j msg now).1.can_retry = false ∧
      (∃ e, (generate_media_async env (handle_retryable_error j msg now).1).outcome
          = Except.error e ∧ e.kind = ExcKind.processing) ∧
      (generate_media_async env (handle_retryable_error j msg now).1).job.status
        = JobStatus.failed) := by
  obtain ⟨h1, h2, -, -, -, hceil, hkeep⟩ := handle_retryable_facts j msg now
  refine ⟨h1, h2, hceil, ?_⟩
  intro hlt
  have hst : (handle_retryable_error j msg now).1.status = JobStatus.processing := by
    rw [hkeep hlt, hs]
  have hnp : (handle_retryable_error j msg now).1.status ≠ JobStatus.pending := by
    rw [hst]
    exact fun hh => by cases hh
  have hca := attempt_nonpending env _ hnp
  refine ⟨hst, ?_, ?_, ?_⟩
  · simp [Job.can_retry, hst]
  · exact ⟨_, by rw [hca], rfl⟩
  · rw [hca]
    rfl

/-- C3 witness: one transient failure on the concrete processing job with
`retry_count` 0 and `max_retries` 3 leaves the job PROCESSING, and the
Celery-retried attempt on it is rejected and marks the job FAILED. -/
theorem c3_witness :
    (handle_retryable_error processingJob "connection reset" 9).1.retry_count = 1 ∧
    (handle_retryable_error processingJob "connection reset" 9).1.status
      = JobStatus.processing ∧
    (generate_media_async env0
      (handle_retryable_error processingJob "connection reset" 9).1).job.status
      = JobStatus.failed := by
  obtain ⟨h1, -, -, h4⟩ :=
    c3_transient_leaves_processing processingJob "connection reset" 9 env0 rfl
  obtain ⟨hst, -, -, hfail⟩ := h4 (by decide)
  exact ⟨h1, hst, hfail⟩

/-! ## Progress invariants of the polling loop and the attempt (C5) -/

/-- The interpolated progress stays within the ladder's polling band
`[0.2, 0.9]` for a non-negative elapsed time and a positive wait window. -/
lemma pollProgress_bounds (e mw : ℚ) (he : 0 ≤ e) (hmw : 0 < mw) :
    0.2 ≤ pollProgress e mw ∧ pollProgress e mw ≤ 0.9 := by
  rw [pollProgress]
  constructor
  · refine le_min ?_ (by norm_num)
    have h1 : 0 ≤ e / mw * 0.7 := by positivity
    linarith
  · exact min_le_right _ _

/-- The polling loop pushes a progress value to the store only when it has
advanced by more than 0.1 (hence at least 0.1) since the last push: the
pushed values, prefixed by the starting `last_progress_update`, form a
chain with gaps of at least 0.1. -/
lemma wait_pushes_gap (pid : String) (steps : List PollStep)
    (maxWait last : ℚ) (j : Job) :
    List.Chain' (fun a b => a + 0.1 ≤ b)
      (last :: (wait_for_prediction pid steps maxWait last j).2.2) := by
  induction steps generalizing last j with
  | nil => simp [wait_for_prediction]
  | cons s rest ih =>
      simp only [wait_for_prediction]
      by_cases h1 : maxWait ≤ s.elapsed
      · rw [if_pos h1]; simp
      · rw [if_neg h1]
        by_cases h2 : last + 0.1 < pollProgress s.elapsed maxWait
        · rw [if_pos h2]
          by_cases h3 : s.pred.status = "succeeded" ∨ s.pred.status = "failed"
              ∨ s.pred.status = "canceled"
          · rw [if_pos h3]
            exact List.chain'_cons.mpr ⟨le_of_lt h2, by simp⟩
          · rw [if_neg h3]
            exact List.chain'_cons.mpr ⟨le_of_lt h2, ih _ _⟩
        · rw [if_neg h2]
          by_cases h3 : s.pred.status = "succeeded" ∨ s.pred.status = "failed"
              ∨ s.pred.status = "canceled"
          · rw [if_pos h3]; simp
          · rw [if_neg h3]; exact ih _ _

/-- Within one polling loop started at `last ∈ [0.2, 0.9]` on a job whose
progress equals `last`: the loop only ever changes the job's `progress` and
`status_message`; the final progress lies in `[last, 0.9]`; every pushed
value lies between `last` and the final progress; and the pushed values are
non-decreasing. -/
lemma wait_spec (pid : String) (maxWait : ℚ) (hmw : 0 < maxWait) :
    ∀ (steps : List PollStep), (∀ s ∈ steps, 0 ≤ s.elapsed) →
    ∀ (last : ℚ) (j : Job), j.progress = last → 0.2 ≤ last → last ≤ 0.9 →
    ∃ p m,
      (wait_for_prediction pid steps maxWait last j).2.1
        = { j with progress := p, status_message := m } ∧
      last ≤ p ∧ p ≤ 0.9 ∧
      (∀ q ∈ (wait_for_prediction pid steps maxWait last j).2.2,
        last ≤ q ∧ q ≤ p) ∧
      ((wait_for_prediction pid steps maxWait last j).2.2).Pairwise (· ≤ ·) := by
  intro steps
  induction steps with
  | nil =>
      intro _ last j hj hl hr
      refine ⟨last, j.status_message, ?_, le_refl _, hr,
        by simp [wait_for_prediction], by simp [wait_for_prediction]⟩
      simp only [wait_for_prediction]
      rw [← hj]
  | cons s rest ih =>
      intro hel last j hj hl hr
      have hse : 0 ≤ s.elapsed := hel s (List.mem_cons_self _ _)
      have hel2 : ∀ t ∈ rest, 0 ≤ t.elapsed :=
        fun t ht => hel t (List.mem_cons_of_mem _ ht)
      simp only [wait_for_prediction]
      by_cases h1 : maxWait ≤ s.elapsed
      · rw [if_pos h1]
        refine ⟨last, j.status_message, ?_, le_refl _, hr, by simp, by simp⟩
        show j = _
        rw [← hj]
      · rw [if_neg h1]
        obtain ⟨hpl, hpr⟩ := pollProgress_bounds s.elapsed maxWait hse hmw
        by_cases h2 : last + 0.1 < pollProgress s.elapsed maxWait
        · have hlp : last ≤ pollProgress s.elapsed maxWait := by linarith
          rw [if_pos h2]
          by_cases h3 : s.pred.status = "succeeded" ∨ s.pred.status = "failed"
              ∨ s.pred.status = "canceled"
          · rw [if_pos h3]
            refine ⟨pollProgress s.elapsed maxWait, _, rfl, hlp, hpr, ?_, by simp⟩
            intro q hq
            rw [List.mem_singleton] at hq
            subst hq
            exact ⟨hlp, le_refl _⟩
          · rw [if_neg h3]
            obtain ⟨p, m, hrec, hp1, hp2, hp3, hp4⟩ :=
              ih hel2 (pollProgress s.elapsed maxWait)
                (update_job_progress j (pollProgress s.elapsed maxWait)
                  ("Processing... (" ++ s.pred.status ++ ")"))
                rfl (le_trans hl hlp) hpr
            refine ⟨p, m, hrec, le_trans hlp hp1, hp2, ?_, ?_⟩
            · intro q hq
              rcases List.mem_cons.mp hq with rfl | hq
              · exact ⟨hlp, hp1⟩
              · obtain ⟨hq1, hq2⟩ := hp3 q hq
                exact ⟨le_trans hlp hq1, hq2⟩
            · refine List.Pairwise.cons ?_ hp4
              intro b hb
              exact (hp3 b hb).1
        · rw [if_neg h2]
          by_cases h3 : s.pred.status = "succeeded" ∨ s.pred.status = "failed"
              ∨ s.pred.status = "canceled"
          · rw [if_pos h3]
            refine ⟨last, j.status_message, ?_, le_refl _, hr, by simp, by simp⟩
            show j = _
            rw [← hj]
          · rw [if_neg h3]
            exact ih hel2 last j hj hl hr

/-- A list of equal values is non-decreasing. -/
lemma pairwise_le_of_all_eq {l : List ℚ} {c : ℚ} (h : ∀ q ∈ l, q = c) :
    l.Pairwise (· ≤ ·) := by
  induction l with
  | nil => exact List.Pairwise.nil
  | cons a t ih =>
      refine List.Pairwise.cons ?_ (ih fun q hq => h q (List.mem_cons_of_mem _ hq))
      intro b hb
      rw [h a (List.mem_cons_self _ _), h b (List.mem_cons_of_mem _ hb)]

/-- Extending a bounded non-decreasing trace by error-handler persists that
all carry the progress value `c` of the job at the failure point keeps it
bounded and non-decreasing. -/
lemma trace_extend_const (tr l2 : List ℚ) (c : ℚ)
    (htr1 : ∀ q ∈ tr, 0 ≤ q ∧ q ≤ 1) (htr2 : tr.Pairwise (· ≤ ·))
    (hle : ∀ q ∈ tr, q ≤ c) (hc0 : 0 ≤ c) (hc1 : c ≤ 1)
    (hl2 : ∀ q ∈ l2, q = c) :
    (∀ q ∈ tr ++ l2, 0 ≤ q ∧ q ≤ 1) ∧ (tr ++ l2).Pairwise (· ≤ ·) := by
  constructor
  · intro q hq
    rcases List.mem_append.mp hq with hq | hq
    · exact htr1 q hq
    · rw [hl2 q hq]; exact ⟨hc0, hc1⟩
  · rw [List.pairwise_append]
    refine ⟨htr2, pairwise_le_of_all_eq hl2, ?_⟩
    intro a ha b hb
    rw [hl2 b hb]
    exact hle a ha

/-- When the attempt body raises, the exception handlers only append
persists of the failure-point job (same progress, possibly marked FAILED)
to the store trace: bounds and monotonicity carry over. -/
lemma attempt_error_trace (env : Env) (j : Job) (e : Exc) (jE : Job)
    (tr : List ℚ)
    (hb : generate_media_body env j = Except.error (e, jE, tr))
    (htr1 : ∀ q ∈ tr, 0 ≤ q ∧ q ≤ 1) (htr2 : tr.Pairwise (· ≤ ·))
    (hle : ∀ q ∈ tr, q ≤ jE.progress)
    (h0 : 0 ≤ jE.progress) (h1 : jE.progress ≤ 1) :
    (∀ q ∈ (generate_media_async env j).trace, 0 ≤ q ∧ q ≤ 1) ∧
    ((generate_media_async env j).trace).Pairwise (· ≤ ·) := by
  have hred : generate_media_async env j =
      (if e.kind = ExcKind.replicate ∨ e.kind = ExcKind.storage then
        ⟨Except.error e, (handle_retryable_error jE e.msg env.now).1,
          tr ++ (handle_retryable_error jE e.msg env.now).2.map
            (fun x => x.progress)⟩
      else
        ⟨Except.error ⟨ExcKind.processing, "Job processing failed: " ++ e.msg⟩,
          handle_fatal_error jE e.msg env.now,
          tr ++ [(handle_fatal_error jE e.msg env.now).progress]⟩
        : AttemptResult) := by
    rw [generate_media_async, hb]
  rw [hred]
  by_cases hk : e.kind = ExcKind.replicate ∨ e.kind = ExcKind.storage
  · rw [if_pos hk]
    refine trace_extend_const tr _ jE.progress htr1 htr2 hle h0 h1 ?_
    intro q hq
    obtain ⟨x, hx, rfl⟩ := List.mem_map.mp hq
    exact (handle_retryable_facts jE e.msg env.now).2.2.2.2.1 x hx
  · rw [if_neg hk]
    refine trace_extend_const tr _ jE.progress htr1 htr2 hle h0 h1 ?_
    intro q hq
    rw [List.mem_singleton] at hq
    subst hq
    simp [handle_fatal_error, Job.mark_failed]

/-- When the attempt body completes, the trace is final as produced. -/
lemma attempt_ok_trace (env : Env) (j : Job) (jF : Job) (tr : List ℚ)
    (hb : generate_media_body env j = Except.ok (jF, tr))
    (htr1 : ∀ q ∈ tr, 0 ≤ q ∧ q ≤ 1) (htr2 : tr.Pairwise (· ≤ ·)) :
    (∀ q ∈ (generate_media_async env j).trace, 0 ≤ q ∧ q ≤ 1) ∧
    ((generate_media_async env j).trace).Pairwise (· ≤ ·) := by
  have hred : generate_media_async env j =
      (⟨Except.ok "completed", jF, tr⟩ : AttemptResult) := by
    rw [generate_media_async, hb]
  rw [hred]
  exact ⟨htr1, htr2⟩

/-- The persisted-progress prefix of every attempt that reaches polling:
the claimed job's own progress (0), then 0.1, 0.1 (prediction-id persist),
0.2. -/
lemma pre_facts (j : Job) (hp : j.progress = 0) :
    (∀ q ∈ [j.progress, (0.1:ℚ), 0.1, 0.2], 0 ≤ q ∧ q ≤ 1) ∧
    ([j.progress, (0.1:ℚ), 0.1, 0.2]).Pairwise (· ≤ ·) ∧
    (∀ q ∈ [j.progress, (0.1:ℚ), 0.1, 0.2], q ≤ 0.2) := by
  rw [hp]
  refine ⟨?_, ?_, ?_⟩
  · intro q hq
    simp only [List.mem_cons, List.not_mem_nil, or_false] at hq
    rcases hq with rfl | rfl | rfl | rfl <;> norm_num
  · refine List.Pairwise.cons ?_ (List.Pairwise.cons ?_
      (List.Pairwise.cons ?_ (List.Pairwise.cons ?_ List.Pairwise.nil))) <;>
      (intro b hb
       simp only [List.mem_cons, List.not_mem_nil, or_false] at hb)
    · rcases hb with rfl | rfl | rfl <;> norm_num
    · rcases hb with rfl | rfl <;> norm_num
    · rcases hb with rfl <;> norm_num
  · intro q hq
    simp only [List.mem_cons, List.not_mem_nil, or_false] at hq
    rcases hq with rfl | rfl | rfl | rfl <;> norm_num

/-- Appending pushes bounded by `[0.2, c]` to the prefix keeps bounds,
monotonicity and the upper bound `c`. -/
lemma trace_append_facts (pre l2 : List ℚ) (c : ℚ)
    (h1 : ∀ q ∈ pre, 0 ≤ q ∧ q ≤ 1) (h2 : pre.Pairwise (· ≤ ·))
    (h3 : ∀ q ∈ pre, q ≤ 0.2)
    (hc : 0.2 ≤ c) (hc9 : c ≤ 0.9)
    (hl2 : ∀ q ∈ l2, 0.2 ≤ q ∧ q ≤ c) (hl2p : l2.Pairwise (· ≤ ·)) :
    (∀ q ∈ pre ++ l2, 0 ≤ q ∧ q ≤ 1) ∧ (pre ++ l2).Pairwise (· ≤ ·) ∧
    (∀ q ∈ pre ++ l2, q ≤ c) := by
  refine ⟨?_, ?_, ?_⟩
  · intro q hq
    rcases List.mem_append.mp hq with hq | hq
    · exact h1 q hq
    · obtain ⟨ha, hb⟩ := hl2 q hq
      constructor <;> linarith
  · rw [List.pairwise_append]
    exact ⟨h2, hl2p, fun a ha b hb => le_trans (h3 a ha) (hl2 b hb).1⟩
  · intro q hq
    rcases List.mem_append.mp hq with hq | hq
    · exact le_trans (h3 q hq) hc
    · exact (hl2 q hq).2

/-- Appending one further checkpoint `c2 ∈ [0, 1]` at or above the current
bound `c` keeps bounds, monotonicity and the new upper bound `c2`. -/
lemma trace_snoc_facts (tr : List ℚ) (c c2 : ℚ)
    (h1 : ∀ q ∈ tr, 0 ≤ q ∧ q ≤ 1) (h2 : tr.Pairwise (· ≤ ·))
    (h3 : ∀ q ∈ tr, q ≤ c) (hcc : c ≤ c2) (h0 : 0 ≤ c2) (hc1 : c2 ≤ 1) :
    (∀ q ∈ tr ++ [c2], 0 ≤ q ∧ q ≤ 1) ∧ (tr ++ [c2]).Pairwise (· ≤ ·) ∧
    (∀ q ∈ tr ++ [c2], q ≤ c2) := by
  refine ⟨?_, ?_, ?_⟩
  · intro q hq
    rcases List.mem_append.mp hq with hq | hq
    · exact h1 q hq
    · rw [List.mem_singleton] at hq
      subst hq
      exact ⟨h0, hc1⟩
  · rw [List.pairwise_append]
    refine ⟨h2, by simp, ?_⟩
    intro a ha b hb
    rw [List.mem_singleton] at hb
    subst hb
    exact le_trans (h3 a ha) hcc
  · intro q hq
    rcases List.mem_append.mp hq with hq | hq
    · exact le_trans (h3 q hq) hcc
    · rw [List.mem_singleton] at hq
      subst hq
      exact le_refl _

/-- The body of an attempt on a PENDING job whose `create_prediction`
succeeded, expressed over the polling-loop call. -/
lemma body_ok_case (env : Env) (j : Job) (pred : Prediction)
    (hs : j.status = JobStatus.pending)
    (hcp : env.createPrediction = Except.ok pred) :
    generate_media_body env j =
      (match wait_for_prediction pred.id env.polls 300 0.2
          (jobAtPolling env j pred.id) with
       | (Except.error e, j5, pushes) =>
           Except.error (e, j5, [j.progress, 0.1, 0.1, 0.2] ++ pushes)
       | (Except.ok pred2, j5, pushes) =>
           if pred2.status ≠ "succeeded" then
             Except.error (⟨ExcKind.replicate,
               "Prediction failed: " ++ pred2.error.getD "Unknown error"⟩, j5,
               [j.progress, 0.1, 0.1, 0.2] ++ pushes)
           else
             match pred2.output with
             | [] => Except.error (⟨ExcKind.replicate, "No output generated"⟩,
                 update_job_progress j5 0.9 "Downloading result...",
                 [j.progress, 0.1, 0.1, 0.2] ++ pushes ++ [0.9])
             | url :: _ =>
                 match env.download with
                 | Except.error e => Except.error (e,
                     update_job_progress j5 0.9 "Downloading result...",
                     [j.progress, 0.1, 0.1, 0.2] ++ pushes ++ [0.9])
                 | Except.ok nbytes =>
                     match env.upload with
                     | Except.error e => Except.error (e,
                         update_job_progress
                           (update_job_progress j5 0.9 "Downloading result...")
                           0.95 "Saving to storage...",
                         [j.progress, 0.1, 0.1, 0.2] ++ pushes ++ [0.9] ++ [0.95])
                     | Except.ok (path, publicUrl) =>
                         Except.ok
                           ((update_job_progress
                               (update_job_progress j5 0.9 "Downloading result...")
                               0.95 "Saving to storage...").mark_completed
                             publicUrl path (some nbytes)
                             (some (determine_content_type url)) env.now,
                           [j.progress, 0.1, 0.1, 0.2] ++ pushes ++ [0.9]
                             ++ [0.95, 1])) := by
  rw [generate_media_body, if_neg (by simp [hs]), hcp]
  rfl

/-- Every progress value persisted through the job store during one
orchestrator attempt on a freshly-claimable job (PENDING, progress 0) lies
in `[0, 1]`, and the persisted sequence is non-decreasing — on every path:
early transient failure, polling timeout, provider failure, empty output,
download/upload failure, or successful completion. -/
lemma attempt_trace_ok (env : Env) (j : Job) (hs : j.status = JobStatus.pending)
    (hp : j.progress = 0) (hel : ∀ s ∈ env.polls, 0 ≤ s.elapsed) :
    (∀ q ∈ (generate_media_async env j).trace, 0 ≤ q ∧ q ≤ 1) ∧
    ((generate_media_async env j).trace).Pairwise (· ≤ ·) := by
  cases hcp : env.createPrediction with
  | error e =>
      have hb : generate_media_body env j =
          Except.error (e, update_job_progress (j.mark_processing env.now) 0.1
            "Creating prediction...", [j.progress, 0.1]) := by
        rw [generate_media_body, if_neg (by simp [hs]), hcp]
        rfl
      refine attempt_error_trace env j e _ _ hb ?_ ?_ ?_ ?_ ?_
      · intro q hq
        simp only [List.mem_cons, List.not_mem_nil, or_false] at hq
        rcases hq with rfl | rfl
        · rw [hp]; norm_num
        · norm_num
      · refine List.Pairwise.cons ?_ (by simp)
        intro b hb2
        rw [List.mem_singleton] at hb2
        subst hb2
        rw [hp]; norm_num
      · intro q hq
        simp only [List.mem_cons, List.not_mem_nil, or_false] at hq
        rcases hq with rfl | rfl
        · rw [hp]
          show (0:ℚ) ≤ 0.1
          norm_num
        · show (0.1:ℚ) ≤ 0.1
          norm_num
      · show (0:ℚ) ≤ 0.1
        norm_num
      · show (0.1:ℚ) ≤ 1
        norm_num
  | ok pred =>
      have hbody := body_ok_case env j pred hs hcp
      obtain ⟨hpre1, hpre2, hpre3⟩ := pre_facts j hp
      rcases hw : wait_for_prediction pred.id env.polls 300 0.2
          (jobAtPolling env j pred.id) with ⟨res, j5, pushes⟩
      obtain ⟨p, m, hshape, hp1, hp2, hp3, hp4⟩ :=
        wait_spec pred.id 300 (by norm_num) env.polls hel 0.2
          (jobAtPolling env j pred.id) rfl (by norm_num) (by norm_num)
      simp only [hw] at hshape hp3 hp4 hbody
      have hj5p : j5.progress = p := by rw [hshape]
      have hpush : ∀ q ∈ pushes, 0.2 ≤ q ∧ q ≤ p := hp3
      obtain ⟨htr1, htr2, htr3⟩ :=
        trace_append_facts [j.progress, 0.1, 0.1, 0.2] pushes p
          hpre1 hpre2 hpre3 hp1 hp2 hpush hp4
      obtain ⟨htr1b, htr2b, htr3b⟩ :=
        trace_snoc_facts ([j.progress, 0.1, 0.1, 0.2] ++ pushes) p 0.9
          htr1 htr2 htr3 hp2 (by norm_num) (by norm_num)
      cases res with
      | error e =>
          have hb : generate_media_body env j =
              Except.error (e, j5, [j.progress, 0.1, 0.1, 0.2] ++ pushes) := by
            rw [hbody]
          refine attempt_error_trace env j e j5 _ hb htr1 htr2 ?_ ?_ ?_
          · rw [hj5p]; exact htr3
          · rw [hj5p]; linarith
          · rw [hj5p]; linarith
      | ok pred2 =>
          by_cases hsp : pred2.status = "succeeded"
          · cases hout : pred2.output with
            | nil =>
                have hb : generate_media_body env j =
                    Except.error (⟨ExcKind.replicate, "No output generated"⟩,
                      update_job_progress j5 0.9 "Downloading result...",
                      [j.progress, 0.1, 0.1, 0.2] ++ pushes ++ [0.9]) := by
                  rw [hbody]
                  simp [hsp, hout]
                refine attempt_error_trace env j _ _ _ hb htr1b htr2b ?_ ?_ ?_
                · exact htr3b
                · show (0:ℚ) ≤ 0.9
                  norm_num
                · show (0.9:ℚ) ≤ 1
                  norm_num
            | cons url tail =>
                cases hdl : env.download with
                | error e =>
                    have hb : generate_media_body env j =
                        Except.error (e,
                          update_job_progress j5 0.9 "Downloading result...",
                          [j.progress, 0.1, 0.1, 0.2] ++ pushes ++ [0.9]) := by
                      rw [hbody]
                      simp [hsp, hout, hdl]
                    refine attempt_error_trace env j _ _ _ hb htr1b htr2b ?_ ?_ ?_
                    · exact htr3b
                    · show (0:ℚ) ≤ 0.9
                      norm_num
                    · show (0.9:ℚ) ≤ 1
                      norm_num
                | ok nbytes =>
                    obtain ⟨htr1c, htr2c, htr3c⟩ :=
                      trace_snoc_facts
                        ([j.progress, 0.1, 0.1, 0.2] ++ pushes ++ [0.9]) 0.9 0.95
                        htr1b htr2b htr3b (by norm_num) (by norm_num) (by norm_num)
                    cases hup : env.upload with
                    | error e =>
                        have hb : generate_media_body env j =
                            Except.error (e,
                              update_job_progress
                                (update_job_progress j5 0.9 "Downloading result...")
                                0.95 "Saving to storage...",
                              [j.progress, 0.1, 0.1, 0.2] ++ pushes ++ [0.9]
                                ++ [0.95]) := by
                          rw [hbody]
                          simp [hsp, hout, hdl, hup]
                        refine attempt_error_trace env j _ _ _ hb htr1c htr2c ?_ ?_ ?_
                        · exact htr3c
                        · show (0:ℚ) ≤ 0.95
                          norm_num
                        · show (0.95:ℚ) ≤ 1
                          norm_num
                    | ok pu =>
                        obtain ⟨htr1d, htr2d, htr3d⟩ :=
                          trace_snoc_facts
                            ([j.progress, 0.1, 0.1, 0.2] ++ pushes ++ [0.9]
                              ++ [0.95]) 0.95 1
                            htr1c htr2c htr3c (by norm_num) (by norm_num)
                            (by norm_num)
                        have hb : generate_media_body env j =
                            Except.ok
                              ((update_job_progress
                                  (update_job_progress j5 0.9
                                    "Downloading result...")
                                  0.95 "Saving to storage...").mark_completed
                                  pu.2 pu.1 (some nbytes)
                                  (some (determine_content_type url)) env.now,
                               [j.progress, 0.1, 0.1, 0.2] ++ pushes ++ [0.9]
                                 ++ [0.95] ++ [1]) := by
                          rw [hbody]
                          simp [hsp, hout, hdl, hup]
                        exact attempt_ok_trace env j _ _ hb htr1d htr2d
          · have hb : generate_media_body env j =
                Except.error (⟨ExcKind.replicate,
                  "Prediction failed: " ++ pred2.error.getD "Unknown error"⟩,
                  j5, [j.progress, 0.1, 0.1, 0.2] ++ pushes) := by
              rw [hbody]
              simp [hsp]
            refine attempt_error_trace env j _ j5 _ hb htr1 htr2 ?_ ?_ ?_
            · rw [hj5p]; exact htr3
            · rw [hj5p]; linarith
            · rw [hj5p]; linarith

/-- C5: during one orchestrator attempt on a claimable job, every progress
value persisted through the job store lies in `[0, 1]` and the persisted
sequence is non-decreasing; the polling interpolation formula is exactly
`min(0.2 + (elapsed / maxWait) * 0.7, 0.9)`; and the polling loop pushes a
progress value only when it has advanced by at least 0.1 since the last
push (the starting value and the pushed values form a chain with gaps of at
least 0.1). -/
theorem c5_progress_invariants (env : Env) (j : Job)
    (hs : j.status = JobStatus.pending) (hp : j.progress = 0)
    (hel : ∀ s ∈ env.polls, 0 ≤ s.elapsed) :
    (∀ q ∈ (generate_media_async env j).trace, 0 ≤ q ∧ q ≤ 1) ∧
    ((generate_media_async env j).trace).Chain' (· ≤ ·) ∧
    (∀ e mw : ℚ, pollProgress e mw = min (0.2 + (e / mw) * 0.7) 0.9) ∧
    (∀ (pid : String) (steps : List PollStep) (mw l : ℚ) (j0 : Job),
      List.Chain' (fun a b => a + 0.1 ≤ b)
        (l :: (wait_for_prediction pid steps mw l j0).2.2)) := by
  obtain ⟨h1, h2⟩ := attempt_trace_ok env j hs hp hel
  exact ⟨h1, h2.chain', fun e mw => rfl,
    fun pid steps mw l j0 => wait_pushes_gap pid steps mw l j0⟩

/-- C5 witness: the trace invariants at the concrete `envNoOutput` attempt
on the pending `baseJob`. -/
theorem c5_witness :
    (∀ q ∈ (generate_media_async envNoOutput baseJob).trace, 0 ≤ q ∧ q ≤ 1) ∧
    ((generate_media_async envNoOutput baseJob).trace).Chain' (· ≤ ·) := by
  obtain ⟨h1, h2, -, -⟩ := c5_progress_invariants envNoOutput baseJob rfl rfl
    (fun s hs => by
      simp only [envNoOutput, List.mem_singleton] at hs
      subst hs
      exact le_refl 0)
  exact ⟨h1, h2⟩

/-- The polling loop only ever writes progress and the status message: it
never touches the job's retry accounting or error message. -/
lemma wait_retry_count (pid : String) (steps : List PollStep)
    (maxWait last : ℚ) (j : Job) :
    (wait_for_prediction pid steps maxWait last j).2.1.retry_count
      = j.retry_count ∧
    (wait_for_prediction pid steps maxWait last j).2.1.error_message
      = j.error_message := by
  induction steps generalizing last j with
  | nil => exact ⟨rfl, rfl⟩
  | cons s rest ih =>
      simp only [wait_for_prediction]
      by_cases h1 : maxWait ≤ s.elapsed
      · rw [if_pos h1]; exact ⟨rfl, rfl⟩
      · rw [if_neg h1]
        by_cases h2 : last + 0.1 < pollProgress s.elapsed maxWait
        · rw [if_pos h2]
          by_cases h3 : s.pred.status = "succeeded" ∨ s.pred.status = "failed"
              ∨ s.pred.status = "canceled"
          · rw [if_pos h3]; exact ⟨rfl, rfl⟩
          · rw [if_neg h3]; exact ih _ _
        · rw [if_neg h2]
          by_cases h3 : s.pred.status = "succeeded" ∨ s.pred.status = "failed"
              ∨ s.pred.status = "canceled"
          · rw [if_pos h3]; exact ⟨rfl, rfl⟩
          · rw [if_neg h3]; exact ih _ _

/-- C9: for every attempt (any environment, any poll trace, any pending
job) in which the provider accepts the prediction and the polling loop
resolves it to terminal status "succeeded" with a missing-or-empty output
list, the attempt raises `ReplicateAPIException("No output generated")`,
which the retryable-error path handles: the job's retry_count is
incremented by 1 and the message recorded (counting against the retry
ceiling), instead of the fatal unclassified-error path. -/
theorem c9_empty_output_is_retryable (env : Env) (j : Job)
    (pred pred2 : Prediction)
    (h : j.status = JobStatus.pending)
    (hcp : env.createPrediction = Except.ok pred)
    (hw : (wait_for_prediction pred.id env.polls 300 0.2
        (jobAtPolling env j pred.id)).1 = Except.ok pred2)
    (hsp : pred2.status = "succeeded")
    (hout : pred2.output = []) :
    (generate_media_async env j).outcome
      = Except.error ⟨ExcKind.replicate, "No output generated"⟩ ∧
    (generate_media_async env j).job.retry_count = j.retry_count + 1 ∧
    (generate_media_async env j).job.error_message
      = some "No output generated" := by
  have hbody := body_ok_case env j pred h hcp
  have hrc := wait_retry_count pred.id env.polls 300 0.2
    (jobAtPolling env j pred.id)
  rcases hww : wait_for_prediction pred.id env.polls 300 0.2
      (jobAtPolling env j pred.id) with ⟨res, j5, pushes⟩
  simp only [hww] at hw hbody hrc
  subst hw
  have hb : generate_media_body env j =
      Except.error (⟨ExcKind.replicate, "No output generated"⟩,
        update_job_progress j5 0.9 "Downloading result...",
        [j.progress, 0.1, 0.1, 0.2] ++ pushes ++ [0.9]) := by
    rw [hbody]
    simp [hsp, hout]
  have hred : generate_media_async env j =
      ⟨Except.error ⟨ExcKind.replicate, "No output generated"⟩,
       (handle_retryable_error
         (update_job_progress j5 0.9 "Downloading result...")
         "No output generated" env.now).1,
       ([j.progress, 0.1, 0.1, 0.2] ++ pushes ++ [0.9]) ++
         ((handle_retryable_error
           (update_job_progress j5 0.9 "Downloading result...")
           "No output generated" env.now).2.map (fun x => x.progress))⟩ := by
    rw [generate_media_async, hb]
    rfl
  obtain ⟨hf1, hf2, -⟩ := handle_retryable_facts
    (update_job_progress j5 0.9 "Downloading result...")
    "No output generated" env.now
  rw [hred]
  refine ⟨rfl, ?_, by rw [hf2]⟩
  rw [hf1]
  rw [show (update_job_progress j5 0.9 "Downloading result...").retry_count
      = j5.retry_count from rfl, hrc.1]
  rfl

/-- C9 witness: the empty-output attempt on the concrete pending `baseJob`
under `envNoOutput` (one poll, elapsed 0, terminal "succeeded", no output). -/
theorem c9_witness :
    (generate_media_async envNoOutput baseJob).outcome
      = Except.error ⟨ExcKind.replicate, "No output generated"⟩ ∧
    (generate_media_async envNoOutput baseJob).job.retry_count = 1 := by
  obtain ⟨h1, h2, -⟩ := c9_empty_output_is_retryable envNoOutput baseJob
    predNoOutput predNoOutput rfl rfl
    (by rw [show envNoOutput.polls = [{ elapsed := 0, pred := predNoOutput }]
          from rfl,
        wait_single_terminal predNoOutput.id predNoOutput _ (Or.inl rfl)])
    rfl rfl
  exact ⟨h1, h2⟩

end MediaGen
